import Mathlib

/-!
Shallow embedding of the bookshelf two-service backend: the auth service's
token lifecycle (register / login / refresh / validate / forgot-password /
reset-password) from `auth-service/routers/users.py` together with the token
codec and hashing helpers of `backend-legacy/auth.py`, the persisted data
model of `backend-legacy/models.py`, and the book service's remote trust
adapter `get_current_user` from `book-service/routers/books.py`.

Modelling conventions:
* Time is a `Nat` of seconds, passed explicitly as `now` (the code calls
  `datetime.utcnow()`).
* A bearer string on the wire is a `TokenStr`: `.signed p` stands for the
  strings that verify under the service's HMAC secret and decode to payload
  `p`; `.unsigned s` stands for every other string (bad signature or
  malformed).  Only holders of the secret can mint `.signed` values, but any
  payload is expressible, which is exactly the input space of `jwt.decode`.
* `hash_token` (SHA-256 hex digest in the code) is modelled as an injective
  tagging function on strings; `hash_password` / `verify_password` (salted
  pbkdf2 via passlib) are modelled by a deterministic injective hash with
  `verify_password p h ↔ h = hash_password p`, the functional contract of the
  password hasher.
* The database session is a `DB` value; every route returns its result
  together with the post-commit state (the input state on a failure path,
  matching transaction rollback).  The `UNIQUE` constraint on
  `refresh_tokens.token_hash` is enforced at insertion: a colliding insert
  makes the whole request fail (`IntegrityError`) with no state change.
* Uncaught Python exceptions (e.g. `int("abc")` raising `ValueError`, or an
  `IntegrityError` at commit) are `ApiError.internal`, distinct from
  `ApiError.http status detail`, since FastAPI turns them into a 500
  response, not an `HTTPException`.
-/

/-- A JSON value usable as the `id` claim of a JWT payload: the code only
ever has to distinguish values accepted by Python's `int()` from the rest. -/
inductive JId where
  | int (n : Int)
  | str (s : String)
deriving Repr, DecidableEq

/-- The claim set of a token minted or decoded by `backend-legacy/auth.py`:
`{"id": ..., "role": ..., "type": ..., "exp": ...}`.  `id`, `role` and
`type` are optional because `payload.get(...)` may return `None`. -/
structure Payload where
  id : Option JId
  role : Option String
  tokType : Option String
  exp : Nat
deriving Repr, DecidableEq

/-- A string presented as a bearer token: `.signed p` are the strings that
verify under the service secret with claims `p`; `.unsigned s` all others. -/
inductive TokenStr where
  | signed (p : Payload)
  | unsigned (s : String)
deriving Repr, DecidableEq

/-- Decimal value of a digit list. -/
def digitsToNat (l : List Char) : Nat :=
  l.foldl (fun a c => a * 10 + (c.toNat - 48)) 0

/-- Parse an optional-sign decimal integer, the way Python's `int(str)` does
on a trimmed literal: at least one digit, optional leading `-` or `+`. -/
def parsePyInt (l : List Char) : Option Int :=
  match l with
  | [] => none
  | '-' :: rest =>
      if rest ≠ [] ∧ rest.all Char.isDigit then some (-(digitsToNat rest : Int)) else none
  | '+' :: rest =>
      if rest ≠ [] ∧ rest.all Char.isDigit then some (digitsToNat rest : Int) else none
  | _ =>
      if l.all Char.isDigit then some (digitsToNat l : Int) else none

/-- Python's `int(x)` on a JSON claim value: succeeds on an actual int, and
on a string exactly when it parses as an integer literal; otherwise raises
`ValueError` (modelled as `none`). -/
def pyInt : JId → Option Int
  | .int n => some n
  | .str s => parsePyInt s.data

/-- Python's `x or "user"` on an optional string column: `None` and `""` are
falsy. -/
def pyOr (r : Option String) (dflt : String) : String :=
  match r with
  | none => dflt
  | some s => if s = "" then dflt else s

/-- Python truthiness test `not x` for an optional string (used on
`reset_code_hash`). -/
def strFalsy : Option String → Bool
  | none => true
  | some s => s == ""

/-- Injective serialization of a payload, standing for the deterministic JWT
encoding `jwt.encode(payload, SECRET_KEY, "HS256")`. -/
def encodeJId : Option JId → String
  | none => "-"
  | some (.int n) => "i" ++ toString n
  | some (.str s) => "s" ++ s

/-- The wire form of a payload's claims (deterministic, as `jwt.encode` is). -/
def encodePayload (p : Payload) : String :=
  encodeJId p.id ++ "|" ++ pyOr p.role "-" ++ "|" ++ pyOr p.tokType "-" ++ "|" ++ toString p.exp

/-- The raw string a `TokenStr` stands for (signed tokens carry a header and
signature around the encoded claims; unsigned ones are the string itself). -/
def serializeToken : TokenStr → String
  | .signed p => "hdr." ++ encodePayload p ++ ".sig"
  | .unsigned s => s

/-- Function `auth.hash_token`: `hashlib.sha256(token.encode()).hexdigest()`, modelled
as an injective one-way tag. -/
def hash_token (s : String) : String := "sha256:" ++ s

/-- Function `auth.hash_password`: salted pbkdf2 via passlib, modelled by its
functional contract (deterministic, injective, verified by comparison). -/
def hash_password (p : String) : String := "pbkdf2_sha256$" ++ p

/-- Function `auth.verify_password`. -/
def verify_password (p h : String) : Bool := h == hash_password p

/-- Setting `ACCESS_TOKEN_EXPIRE_MINUTES` (env default 15). -/
def ACCESS_TOKEN_EXPIRE_MINUTES : Nat := 15

/-- Setting `REFRESH_TOKEN_EXPIRE_DAYS` (env default 7). -/
def REFRESH_TOKEN_EXPIRE_DAYS : Nat := 7

/-- Function `auth.create_access_token(user_id, role)`: signs
`{"id": user_id, "role": role, "type": "access", "exp": now + minutes}`. -/
def create_access_token (now : Nat) (user_id : Int) (role : String) : TokenStr :=
  .signed { id := some (.int user_id), role := some role, tokType := some "access",
            exp := now + ACCESS_TOKEN_EXPIRE_MINUTES * 60 }

/-- Function `auth.create_refresh_token(user_id, role)`: signs
`{"id": user_id, "role": role, "type": "refresh", "exp": now + days}`. -/
def create_refresh_token (now : Nat) (user_id : Int) (role : String) : TokenStr :=
  .signed { id := some (.int user_id), role := some role, tokType := some "refresh",
            exp := now + REFRESH_TOKEN_EXPIRE_DAYS * 86400 }

/-- An HTTP-visible outcome of a route: `http status detail` is a raised
`HTTPException` (status code and the `detail` string the client receives);
`internal` is an uncaught exception surfacing as a 500 response. -/
inductive ApiError where
  | http (status : Nat) (detail : String)
  | internal (msg : String)
deriving Repr, DecidableEq

/-- Function `jose.jwt.decode` wrapped by `auth.decode_token`: a uniform 401 for a bad
signature, malformed token, or elapsed `exp` (jose rejects when
`exp < now`). -/
def decode_token (now : Nat) : TokenStr → Except ApiError Payload
  | .signed p =>
      if p.exp < now then .error (.http 401 "Invalid or expired token") else .ok p
  | .unsigned _ => .error (.http 401 "Invalid or expired token")

/-! Persisted data model (`backend-legacy/models.py`). -/

/-- Table `models.User`: `password` is the stored hash; the two `reset_code`
columns are nullable and hold the OTP hash and its absolute expiry. -/
structure User where
  id : Nat
  name : String
  email : String
  password : String
  role : Option String
  reset_code_hash : Option String
  reset_code_expires_at : Option Nat
deriving Repr, DecidableEq

/-- Table `models.RefreshToken`: one ledger row per issued refresh token, storing
only the token's hash; `token_hash` carries a `UNIQUE` constraint. -/
structure RefreshToken where
  id : Nat
  user_id : Nat
  token_hash : String
  expires_at : Nat
  revoked : Bool
deriving Repr, DecidableEq

/-- The database state: both tables plus the autoincrement counters. -/
structure DB where
  users : List User
  tokens : List RefreshToken
  nextUserId : Nat
  nextTokenId : Nat
deriving Repr, DecidableEq

/-- Insert honouring the `UNIQUE` constraint on `token_hash`: `none` when the
hash is already present (the commit would raise `IntegrityError`). -/
def insertRefreshToken (db : DB) (uid : Nat) (h : String) (expiry : Nat) : Option DB :=
  if db.tokens.any (fun r => r.token_hash == h) then none
  else some { db with
    tokens := db.tokens ++ [{ id := db.nextTokenId, user_id := uid, token_hash := h,
                              expires_at := expiry, revoked := false }],
    nextTokenId := db.nextTokenId + 1 }

/-! Auth routes (`auth-service/routers/users.py`). -/

/-- Response schema of `/users/register` (`schemas.UserPublic`). -/
structure UserPublic where
  id : Nat
  name : String
  email : String
  role : Option String
deriving Repr, DecidableEq

/-- Response schema of `/users/login` and `/users/refresh`
(`schemas.TokenResponse`). -/
structure TokenResponse where
  token : TokenStr
  refresh_token : TokenStr
deriving Repr, DecidableEq

/-- Result of `/users/validate`: `{"user_id": int(user_id), "role": payload.get("role")}`. -/
structure ValidateOut where
  user_id : Int
  role : Option String
deriving Repr, DecidableEq

/-- Route `POST /users/register`: 409 on an existing email, otherwise stores the
user with the hashed password and role `"user"`. -/
def register (db : DB) (name email password : String) : Except ApiError UserPublic × DB :=
  if db.users.any (fun u => u.email == email) then
    (.error (.http 409 "Email already registered"), db)
  else
    let u : User := { id := db.nextUserId, name := name, email := email,
                      password := hash_password password, role := some "user",
                      reset_code_hash := none, reset_code_expires_at := none }
    (.ok { id := u.id, name := name, email := email, role := some "user" },
     { db with users := db.users ++ [u], nextUserId := db.nextUserId + 1 })

/-- Route `POST /users/login`: distinct 400s for unknown email ("User not found")
and wrong password ("Wrong password"); on success issues an access/refresh
pair and records the refresh token's hash in the ledger. -/
def login (now : Nat) (db : DB) (email password : String) :
    Except ApiError TokenResponse × DB :=
  match db.users.find? (fun u => u.email == email) with
  | none => (.error (.http 400 "User not found"), db)
  | some u =>
    if !verify_password password u.password then
      (.error (.http 400 "Wrong password"), db)
    else
      let role := pyOr u.role "user"
      let access := create_access_token now u.id role
      let refresh := create_refresh_token now u.id role
      let rhash := hash_token (serializeToken refresh)
      let rexp := now + REFRESH_TOKEN_EXPIRE_DAYS * 86400
      match insertRefreshToken db u.id rhash rexp with
      | none => (.error (.internal "IntegrityError"), db)
      | some db2 => (.ok { token := access, refresh_token := refresh }, db2)

/-- The read-and-check part of `POST /users/refresh` (lines 114–126): hash
the presented string, look the hash up in the ledger, reject a missing,
revoked or expired row, then load the owning user. -/
def refreshRead (now : Nat) (db : DB) (tok : TokenStr) :
    Except ApiError (RefreshToken × User) :=
  let h := hash_token (serializeToken tok)
  match db.tokens.find? (fun r => r.token_hash == h) with
  | none => .error (.http 401 "Invalid refresh token")
  | some rec =>
    if rec.revoked || decide (rec.expires_at < now) then
      .error (.http 401 "Invalid refresh token")
    else
      match db.users.find? (fun u => u.id == rec.user_id) with
      | none => .error (.http 401 "User not found")
      | some u => .ok (rec, u)

/-- The `UPDATE refresh_tokens SET revoked = true WHERE id = recId` row
function (`db_token.revoked = True` at commit). -/
def revokeRow (recId : Nat) (r : RefreshToken) : RefreshToken :=
  if r.id == recId then { r with revoked := true } else r

/-- The mutating part of `POST /users/refresh` (lines 128–146): mark the
consumed row revoked, mint a fresh pair, insert the new hash, commit.  An
`IntegrityError` at commit rolls the whole transaction back. -/
def refreshWrite (now : Nat) (db : DB) (recId : Nat) (u : User) :
    Except ApiError TokenResponse × DB :=
  let role := pyOr u.role "user"
  let newAccess := create_access_token now u.id role
  let newRefresh := create_refresh_token now u.id role
  let nh := hash_token (serializeToken newRefresh)
  let nexp := now + REFRESH_TOKEN_EXPIRE_DAYS * 86400
  let db1 := { db with tokens := db.tokens.map (revokeRow recId) }
  match insertRefreshToken db1 u.id nh nexp with
  | none => (.error (.internal "IntegrityError"), db)
  | some db2 => (.ok { token := newAccess, refresh_token := newRefresh }, db2)

/-- Route `POST /users/refresh`, the sequential route: read phase then write phase
against the same snapshot. -/
def refresh_token (now : Nat) (db : DB) (tok : TokenStr) :
    Except ApiError TokenResponse × DB :=
  match refreshRead now db tok with
  | .error e => (.error e, db)
  | .ok (rec, u) => refreshWrite now db rec.id u

/-- Route `GET /users/validate`: decode, require `type == "access"` and a present
`id` claim (each a 401), then `int(user_id)` — which the code does NOT guard,
so a non-numeric `id` raises `ValueError` (a 500, not a 401). -/
def validate_token (now : Nat) (tok : TokenStr) : Except ApiError ValidateOut :=
  match decode_token now tok with
  | .error e => .error e
  | .ok payload =>
    if payload.tokType ≠ some "access" then
      .error (.http 401 "Invalid token type")
    else
      match payload.id with
      | none => .error (.http 401 "Token missing user id")
      | some v =>
        match pyInt v with
        | some n => .ok { user_id := n, role := payload.role }
        | none => .error (.internal "ValueError: int() argument not numeric")

/-- The outcome of the external Resend call attempted by `_send_email`. -/
inductive EmailOutcome where
  | notConfigured
  | sent
  | httpFailure
  | networkError
deriving Repr, DecidableEq

/-- Function `_send_email`: skipped silently when unconfigured; a non-2xx Resend
response or a network error raises 502. -/
def send_email_result : EmailOutcome → Except ApiError Unit
  | .notConfigured => .ok ()
  | .sent => .ok ()
  | .httpFailure => .error (.http 502 "Failed to send email.")
  | .networkError => .error (.http 502 "Email service communication error")

/-- The OTP string `f"{secrets.randbelow(1000000):06d}"` for draw `n`. -/
def formatOTP (n : Nat) : String :=
  let s := toString (n % 1000000)
  String.mk (List.replicate (6 - s.length) '0') ++ s

/-- The row update of `forgot_password`: store the OTP hash and expiry on
the matching user. -/
def setOtpRow (uid : Nat) (oh : String) (expiry : Nat) (v : User) : User :=
  if v.id == uid then
    { v with reset_code_hash := some oh, reset_code_expires_at := some expiry }
  else v

/-- Route `POST /users/forgot-password`: 404 on unknown email; otherwise stores the
OTP hash and a 15-minute expiry on the user and COMMITS, and only then
attempts delivery — a delivery failure is reported but not rolled back.
`otpDraw` is the random draw; `mailOutcome` the external call's result. -/
def forgot_password (now : Nat) (db : DB) (email : String) (otpDraw : Nat)
    (mailOutcome : EmailOutcome) : Except ApiError String × DB :=
  match db.users.find? (fun u => u.email == email) with
  | none => (.error (.http 404 "Email not registered"), db)
  | some u =>
    let oh := hash_token (formatOTP otpDraw)
    let db1 := { db with users := db.users.map (setOtpRow u.id oh (now + 15 * 60)) }
    match send_email_result mailOutcome with
    | .error e => (.error e, db1)
    | .ok _ => (.ok "OTP has been sent.", db1)

/-- The row update of `reset_password`: replace the password hash and clear
both OTP columns on the matching user. -/
def resetRow (uid : Nat) (newHash : String) (v : User) : User :=
  if v.id == uid then
    { v with password := newHash, reset_code_hash := none, reset_code_expires_at := none }
  else v

/-- Route `POST /users/reset-password`: four distinct 400s (unknown email, no OTP
pending, OTP expired, OTP mismatch); on success replaces the password hash
and clears both OTP columns. -/
def reset_password (now : Nat) (db : DB) (email otp new_password : String) :
    Except ApiError String × DB :=
  match db.users.find? (fun u => u.email == email) with
  | none => (.error (.http 400 "Invalid email or OTP"), db)
  | some u =>
    if strFalsy u.reset_code_hash || u.reset_code_expires_at == none then
      (.error (.http 400 "OTP not requested"), db)
    else
      match u.reset_code_expires_at with
      | none => (.error (.http 400 "OTP not requested"), db)
      | some t =>
        if t < now then (.error (.http 400 "OTP expired"), db)
        else if some (hash_token otp) ≠ u.reset_code_hash then
          (.error (.http 400 "Invalid OTP"), db)
        else
          (.ok "Password updated",
           { db with users := db.users.map (resetRow u.id (hash_password new_password)) })

/-! Book-service trust adapter (`book-service/routers/books.py`). -/

/-- Outcome of the book service's HTTP call to `GET /users/validate`:
either a response with a status code and (when 200) a parsed body, or a
transport-level failure (`httpx.RequestError`). -/
inductive AuthCallResult where
  | response (status : Nat) (body : ValidateOut)
  | networkError
deriving Repr, DecidableEq

/-- Function `get_current_user`: empty token → 401; remote non-200 → 401; network
failure → 503; only a 200 yields the identity the auth service returned. -/
def get_current_user (token : String) (call : AuthCallResult) :
    Except ApiError ValidateOut :=
  if token = "" then .error (.http 401 "Missing token")
  else
    match call with
    | .networkError => .error (.http 503 "Auth service unavailable")
    | .response st body =>
      if st ≠ 200 then .error (.http 401 "Invalid token")
      else .ok body

/-! Operation traces over the state of the auth service. -/

/-- One inbound state-changing request to the auth service. -/
inductive Op where
  | register (name email password : String)
  | login (email password : String)
  | refresh (tok : TokenStr)
  | forgot (email : String) (otpDraw : Nat) (mailOutcome : EmailOutcome)
  | reset (email otp new_password : String)
deriving Repr, DecidableEq

/-- The database state after handling one timestamped request (the input
state when the request failed and rolled back). -/
def applyStep (db : DB) : Nat × Op → DB
  | (_, .register n e p) => (register db n e p).2
  | (now, .login e p) => (login now db e p).2
  | (now, .refresh t) => (refresh_token now db t).2
  | (now, .forgot e d m) => (forgot_password now db e d m).2
  | (now, .reset e o p) => (reset_password now db e o p).2

/-- The state after a whole trace of timestamped requests. -/
def run (db : DB) (ops : List (Nat × Op)) : DB := ops.foldl applyStep db

/-! Helper predicates. -/

/-- Does an `Except` hold a success? -/
def isOkE {ε α : Type} : Except ε α → Bool
  | .ok _ => true
  | .error _ => false

/-- Is the outcome a raised 401 `HTTPException`? -/
def isUnauthorized {α : Type} : Except ApiError α → Bool
  | .error (.http 401 _) => true
  | _ => false

/-- The access token of a successful login/refresh response. -/
def getToken : Except ApiError TokenResponse → TokenStr
  | .ok r => r.token
  | .error _ => .unsigned ""

/-- The first row matching a hash in a ledger table is present and revoked. -/
def revokedFirstL (l : List RefreshToken) (h : String) : Bool :=
  match l.find? (fun r => r.token_hash == h) with
  | some rec => rec.revoked
  | none => false

/-- The first ledger row matching a hash is present and revoked. -/
def revokedFirst (db : DB) (h : String) : Bool :=
  revokedFirstL db.tokens h

/-- The ledger-only acceptance condition the refresh route actually checks:
first row for the hash exists, is unrevoked and unexpired, and its owner
exists. -/
def ledgerAccepts (now : Nat) (db : DB) (h : String) : Bool :=
  match db.tokens.find? (fun r => r.token_hash == h) with
  | none => false
  | some rec =>
    !rec.revoked && !(decide (rec.expires_at < now))
      && (db.users.find? (fun u => u.id == rec.user_id)).isSome

deriving instance DecidableEq for Except

/-! Two racing refresh handlers.

The route body is a plain ORM read (`refreshRead`) followed by a write
(`refreshWrite`); nothing conditions the `UPDATE` on the row still being
unrevoked.  Under concurrent request handling with the default
read-committed isolation, two handlers racing on the same token can both
run their read phase against the pre-state and then commit their writes in
turn — the schedule `read₁, read₂, write₁, write₂` modelled here.  `now1`
and `now2` are the two handlers' clock readings. -/

/-- Two concurrent `POST /users/refresh` calls on the same token under the
interleaving `read₁, read₂, write₁, write₂`: returns both responses and the
final committed state. -/
def raceTwoRefresh (now1 now2 : Nat) (db : DB) (tok : TokenStr) :
    Except ApiError TokenResponse × Except ApiError TokenResponse × DB :=
  match refreshRead now1 db tok, refreshRead now2 db tok with
  | .ok (rec1, v1), .ok (rec2, v2) =>
    let a := refreshWrite now1 db rec1.id v1
    let b := refreshWrite now2 a.2 rec2.id v2
    (a.1, b.1, b.2)
  | .ok (rec1, v1), .error e2 =>
    let a := refreshWrite now1 db rec1.id v1
    (a.1, .error e2, a.2)
  | .error e1, .ok (rec2, v2) =>
    let b := refreshWrite now2 db rec2.id v2
    (.error e1, b.1, b.2)
  | .error e1, .error e2 => (.error e1, .error e2, db)

/-! Concrete states used by counterexamples and witnesses. -/

/-- A registered user with password `pw` and no pending OTP. -/
def exUser : User :=
  { id := 1, name := "A", email := "a@x.com", password := hash_password "pw",
    role := some "user", reset_code_hash := none, reset_code_expires_at := none }

/-- A refresh token the service minted for `exUser` at time 50. -/
def exTok1 : TokenStr := create_refresh_token 50 1 "user"

/-- State after a login: one live ledger row holding `exTok1`'s hash. -/
def exDB1 : DB :=
  { users := [exUser],
    tokens := [{ id := 0, user_id := 1, token_hash := hash_token (serializeToken exTok1),
                 expires_at := 999999, revoked := false }],
    nextUserId := 2, nextTokenId := 5 }

/-- A ledger state whose single live row's hash is the hash of the plain
string `"garbage"`, which is not a signed token at all. -/
def exDB3 : DB :=
  { users := [exUser],
    tokens := [{ id := 0, user_id := 1, token_hash := hash_token "garbage",
                 expires_at := 999999, revoked := false }],
    nextUserId := 2, nextTokenId := 5 }

/-- A well-signed, unexpired access token whose `id` claim is the
non-numeric string `"abc"`. -/
def exTokC2 : TokenStr :=
  .signed { id := some (.str "abc"), role := some "user", tokType := some "access", exp := 9999 }

/-- The empty database. -/
def exDBEmpty : DB := { users := [], tokens := [], nextUserId := 1, nextTokenId := 1 }

/-- A user with a pending OTP: hash of code `"123456"`, expiring at 900. -/
def exUserOtp : User :=
  { id := 1, name := "A", email := "a@x.com", password := hash_password "pw",
    role := some "user", reset_code_hash := some (hash_token "123456"),
    reset_code_expires_at := some 900 }

/-- State with a pending OTP for `a@x.com`. -/
def exDBOtp : DB :=
  { users := [exUserOtp], tokens := [], nextUserId := 2, nextTokenId := 1 }

/-! Structural lemmas. -/

theorem revokeRow_token_hash (recId : Nat) (r : RefreshToken) :
    (revokeRow recId r).token_hash = r.token_hash := by
  unfold revokeRow; split <;> rfl

theorem revokeRow_revoked_mono (recId : Nat) (r : RefreshToken) (h : r.revoked = true) :
    (revokeRow recId r).revoked = true := by
  unfold revokeRow; split <;> simp [h]

theorem find?_map_tokenHash (l : List RefreshToken) (h : String) (f : RefreshToken → RefreshToken)
    (hf : ∀ r, (f r).token_hash = r.token_hash) :
    (l.map f).find? (fun r => r.token_hash == h) = (l.find? (fun r => r.token_hash == h)).map f := by
  have hp : ((fun r : RefreshToken => r.token_hash == h) ∘ f)
      = (fun r : RefreshToken => r.token_hash == h) := by
    funext r; simp [Function.comp, hf r]
  rw [List.find?_map, hp]

theorem revokedFirstL_append (l : List RefreshToken) (x : RefreshToken) (h : String)
    (hrf : revokedFirstL l h = true) : revokedFirstL (l ++ [x]) h = true := by
  unfold revokedFirstL at *
  rw [List.find?_append]
  cases heq : l.find? (fun r => r.token_hash == h) with
  | none => rw [heq] at hrf; simp at hrf
  | some rec =>
    rw [heq] at hrf
    simp at hrf
    simp [Option.or, hrf]

theorem revokedFirstL_map_revoke (l : List RefreshToken) (tid : Nat) (h : String)
    (hrf : revokedFirstL l h = true) :
    revokedFirstL (l.map (revokeRow tid)) h = true := by
  unfold revokedFirstL at *
  rw [find?_map_tokenHash l h (revokeRow tid) (revokeRow_token_hash tid)]
  cases heq : l.find? (fun r => r.token_hash == h) with
  | none => rw [heq] at hrf; simp at hrf
  | some rec =>
    rw [heq] at hrf
    simp at hrf
    simp [Option.map, revokeRow_revoked_mono tid rec hrf]

theorem insertRefreshToken_some (db : DB) (uid : Nat) (h : String) (e : Nat) (db2 : DB)
    (hins : insertRefreshToken db uid h e = some db2) :
    db2.tokens = db.tokens ++ [{ id := db.nextTokenId, user_id := uid, token_hash := h,
                                 expires_at := e, revoked := false }]
      ∧ db2.users = db.users := by
  unfold insertRefreshToken at hins
  split at hins
  · simp at hins
  · injection hins with h2
    subst h2
    exact ⟨rfl, rfl⟩

theorem refreshRead_ok_facts (now : Nat) (db : DB) (tok : TokenStr) (rec : RefreshToken) (u : User)
    (h : refreshRead now db tok = .ok (rec, u)) :
    db.tokens.find? (fun r => r.token_hash == hash_token (serializeToken tok)) = some rec
      ∧ rec.revoked = false
      ∧ ¬ rec.expires_at < now
      ∧ db.users.find? (fun v => v.id == rec.user_id) = some u := by
  simp only [refreshRead] at h
  split at h
  · simp at h
  · rename_i rec' hfind
    split at h
    · simp at h
    · rename_i hrev
      split at h
      · simp at h
      · rename_i u' huser
        simp at h
        obtain ⟨h1, h2⟩ := h
        subst h1; subst h2
        simp at hrev
        exact ⟨hfind, hrev.1, Nat.not_lt.mpr hrev.2, huser⟩

theorem revokedFirstL_map_revoke_hit (l : List RefreshToken) (h : String) (rec : RefreshToken)
    (hfind : l.find? (fun r => r.token_hash == h) = some rec) :
    revokedFirstL (l.map (revokeRow rec.id)) h = true := by
  unfold revokedFirstL
  rw [find?_map_tokenHash l h (revokeRow rec.id) (revokeRow_token_hash rec.id), hfind]
  simp [Option.map, revokeRow]

theorem refreshRead_of_revoked (now : Nat) (db : DB) (tok : TokenStr) (rec : RefreshToken)
    (hfind : db.tokens.find? (fun r => r.token_hash == hash_token (serializeToken tok)) = some rec)
    (hrev : rec.revoked = true) :
    refreshRead now db tok = .error (.http 401 "Invalid refresh token") := by
  simp [refreshRead, hfind, hrev]

theorem refresh_revoked_fails (now : Nat) (db : DB) (tok : TokenStr)
    (h : revokedFirst db (hash_token (serializeToken tok)) = true) :
    (refresh_token now db tok).1 = .error (.http 401 "Invalid refresh token") := by
  unfold revokedFirst revokedFirstL at h
  cases heq : db.tokens.find? (fun r => r.token_hash == hash_token (serializeToken tok)) with
  | none => rw [heq] at h; simp at h
  | some rec =>
    rw [heq] at h
    simp at h
    simp [refresh_token, refreshRead_of_revoked now db tok rec heq h]

theorem refresh_ok_revokes (now : Nat) (db : DB) (tok : TokenStr)
    (hok : isOkE (refresh_token now db tok).1 = true) :
    revokedFirst (refresh_token now db tok).2 (hash_token (serializeToken tok)) = true := by
  cases hread : refreshRead now db tok with
  | error e =>
    have hh : refresh_token now db tok = (.error e, db) := by simp [refresh_token, hread]
    rw [hh] at hok; simp [isOkE] at hok
  | ok p =>
    obtain ⟨rec, u⟩ := p
    have hh : refresh_token now db tok = refreshWrite now db rec.id u := by
      simp [refresh_token, hread]
    rw [hh] at hok ⊢
    obtain ⟨hfind, hrev, hexp, huser⟩ := refreshRead_ok_facts now db tok rec u hread
    simp only [refreshWrite] at hok ⊢
    cases hins : insertRefreshToken { db with tokens := db.tokens.map (revokeRow rec.id) } u.id
        (hash_token (serializeToken (create_refresh_token now u.id (pyOr u.role "user"))))
        (now + REFRESH_TOKEN_EXPIRE_DAYS * 86400) with
    | none => rw [hins] at hok; simp [isOkE] at hok
    | some db2 =>
      show revokedFirst db2 (hash_token (serializeToken tok)) = true
      obtain ⟨htoks, husers⟩ := insertRefreshToken_some _ _ _ _ _ hins
      unfold revokedFirst
      rw [htoks]
      apply revokedFirstL_append
      exact revokedFirstL_map_revoke_hit db.tokens _ rec hfind

theorem register_tokens (db : DB) (n e p : String) : (register db n e p).2.tokens = db.tokens := by
  unfold register
  split <;> rfl

theorem forgot_tokens (now : Nat) (db : DB) (e : String) (d : Nat) (m : EmailOutcome) :
    (forgot_password now db e d m).2.tokens = db.tokens := by
  unfold forgot_password
  repeat' split
  all_goals rfl

theorem reset_tokens (now : Nat) (db : DB) (email otp npw : String) :
    (reset_password now db email otp npw).2.tokens = db.tokens := by
  unfold reset_password
  repeat' split
  all_goals rfl

theorem revokedFirst_login (now : Nat) (db : DB) (e p : String) (h : String)
    (hrf : revokedFirst db h = true) : revokedFirst (login now db e p).2 h = true := by
  simp only [login]
  split
  · exact hrf
  · rename_i u hfind
    split
    · exact hrf
    · cases hins : insertRefreshToken db u.id
          (hash_token (serializeToken (create_refresh_token now u.id (pyOr u.role "user"))))
          (now + REFRESH_TOKEN_EXPIRE_DAYS * 86400) with
      | none => exact hrf
      | some db2 =>
        obtain ⟨htoks, _⟩ := insertRefreshToken_some _ _ _ _ _ hins
        show revokedFirst db2 h = true
        unfold revokedFirst
        rw [htoks]
        exact revokedFirstL_append _ _ _ hrf

theorem revokedFirst_refresh (now : Nat) (db : DB) (t : TokenStr) (h : String)
    (hrf : revokedFirst db h = true) : revokedFirst (refresh_token now db t).2 h = true := by
  cases hread : refreshRead now db t with
  | error e =>
    have hh : refresh_token now db t = (.error e, db) := by simp [refresh_token, hread]
    rw [hh]; exact hrf
  | ok q =>
    obtain ⟨rec, u⟩ := q
    have hh : refresh_token now db t = refreshWrite now db rec.id u := by
      simp [refresh_token, hread]
    rw [hh]
    simp only [refreshWrite]
    cases hins : insertRefreshToken { db with tokens := db.tokens.map (revokeRow rec.id) } u.id
        (hash_token (serializeToken (create_refresh_token now u.id (pyOr u.role "user"))))
        (now + REFRESH_TOKEN_EXPIRE_DAYS * 86400) with
    | none => exact hrf
    | some db2 =>
      obtain ⟨htoks, _⟩ := insertRefreshToken_some _ _ _ _ _ hins
      show revokedFirst db2 h = true
      unfold revokedFirst
      rw [htoks]
      apply revokedFirstL_append
      exact revokedFirstL_map_revoke db.tokens rec.id h hrf

theorem revokedFirst_applyStep (db : DB) (s : Nat × Op) (h : String)
    (hrf : revokedFirst db h = true) : revokedFirst (applyStep db s) h = true := by
  obtain ⟨now, op⟩ := s
  cases op with
  | register n e p =>
    show revokedFirst (register db n e p).2 h = true
    unfold revokedFirst
    rw [register_tokens db n e p]
    exact hrf
  | login e p => exact revokedFirst_login now db e p h hrf
  | refresh t => exact revokedFirst_refresh now db t h hrf
  | forgot e d m =>
    show revokedFirst (forgot_password now db e d m).2 h = true
    unfold revokedFirst
    rw [forgot_tokens now db e d m]
    exact hrf
  | reset e o p =>
    show revokedFirst (reset_password now db e o p).2 h = true
    unfold revokedFirst
    rw [reset_tokens now db e o p]
    exact hrf

theorem revokedFirst_run (db : DB) (ops : List (Nat × Op)) (h : String)
    (hrf : revokedFirst db h = true) : revokedFirst (run db ops) h = true := by
  induction ops generalizing db with
  | nil => exact hrf
  | cons s rest ih =>
    show revokedFirst (run (applyStep db s) rest) h = true
    exact ih (applyStep db s) (revokedFirst_applyStep db s h hrf)

/-- C1: once a refresh token has been successfully consumed by the refresh
operation, every later refresh call presenting the same token fails with
401 Unauthorized, in whatever state any further sequence of operations
produces: its ledger row is revoked by the rotation and revocation is never
undone. -/
theorem refresh_rotation_single_use
    (now : Nat) (db : DB) (r1 : TokenStr)
    (hok : isOkE (refresh_token now db r1).1 = true)
    (ops : List (Nat × Op)) (now2 : Nat) :
    (refresh_token now2 (run (refresh_token now db r1).2 ops) r1).1
      = .error (.http 401 "Invalid refresh token") :=
  refresh_revoked_fails now2 _ r1
    (revokedFirst_run _ ops _ (refresh_ok_revokes now db r1 hok))

/-- Witness for C1 at a concrete state: a login-issued token is consumed
once, a further login happens, and the replay still fails 401. -/
theorem refresh_rotation_single_use_witness :
    isOkE (refresh_token 0 exDB1 exTok1).1 = true ∧
    (refresh_token 3 (run (refresh_token 0 exDB1 exTok1).2 [(7, Op.login "a@x.com" "pw")]) exTok1).1
      = .error (.http 401 "Invalid refresh token") :=
  ⟨by decide, refresh_rotation_single_use 0 exDB1 exTok1 (by decide) [(7, Op.login "a@x.com" "pw")] 3⟩

/-- C2 counterexample: a well-signed, unexpired access token whose `id`
claim is the non-numeric string `"abc"` makes `validate` raise an uncaught
`ValueError` (HTTP 500), not the claimed 401 Unauthorized. -/
theorem validate_nonnumeric_subject_not_unauthorized :
    validate_token 0 exTokC2 = .error (.internal "ValueError: int() argument not numeric")
      ∧ isUnauthorized (validate_token 0 exTokC2) = false
      ∧ isOkE (validate_token 0 exTokC2) = false :=
  ⟨by decide, by decide, by decide⟩

/-- C2 amended: validate fails 401 for a bad signature, an expired token, a
non-access `type`, or a missing subject; a present but non-numeric subject
fails with an uncaught error (500), not 401; a refresh-type token never
validates; on success the token's numeric subject and role are returned. -/
theorem validate_token_cases (now : Nat) (p : Payload) (s : String) :
    (validate_token now (.unsigned s) = .error (.http 401 "Invalid or expired token"))
    ∧ (p.exp < now → validate_token now (.signed p) = .error (.http 401 "Invalid or expired token"))
    ∧ (¬ p.exp < now → p.tokType ≠ some "access" →
        validate_token now (.signed p) = .error (.http 401 "Invalid token type"))
    ∧ (¬ p.exp < now → p.tokType = some "access" → p.id = none →
        validate_token now (.signed p) = .error (.http 401 "Token missing user id"))
    ∧ (∀ v, ¬ p.exp < now → p.tokType = some "access" → p.id = some v → pyInt v = none →
        validate_token now (.signed p)
          = .error (.internal "ValueError: int() argument not numeric"))
    ∧ (∀ v n, ¬ p.exp < now → p.tokType = some "access" → p.id = some v → pyInt v = some n →
        validate_token now (.signed p) = .ok { user_id := n, role := p.role })
    ∧ (p.tokType = some "refresh" → isOkE (validate_token now (.signed p)) = false) := by
  refine ⟨?_, ?_, ?_, ?_, ?_, ?_, ?_⟩
  · simp [validate_token, decode_token]
  · intro hexp; simp [validate_token, decode_token, hexp]
  · intro hexp htype; simp [validate_token, decode_token, hexp, htype]
  · intro hexp htype hid; simp [validate_token, decode_token, hexp, htype, hid]
  · intro v hexp htype hid hpy; simp [validate_token, decode_token, hexp, htype, hid, hpy]
  · intro v n hexp htype hid hpy; simp [validate_token, decode_token, hexp, htype, hid, hpy]
  · intro htype
    by_cases hexp : p.exp < now
    · simp [validate_token, decode_token, hexp, isOkE]
    · simp [validate_token, decode_token, hexp, htype, isOkE]

/-- Witness for C2's amended theorem: a numeric-subject access token
validates to its id and role; a service-minted refresh token never does. -/
theorem validate_token_cases_witness :
    validate_token 5 (.signed { id := some (.int 9), role := some "admin", tokType := some "access", exp := 100 })
      = .ok { user_id := 9, role := some "admin" }
    ∧ isOkE (validate_token 5 (create_refresh_token 5 9 "admin")) = false :=
  ⟨(validate_token_cases 5 { id := some (.int 9), role := some "admin", tokType := some "access", exp := 100 } "x").2.2.2.2.2.1
      (.int 9) 9 (by decide) (by decide) (by decide) (by decide),
   (validate_token_cases 5 { id := some (.int 9), role := some "admin", tokType := some "refresh", exp := 5 + REFRESH_TOKEN_EXPIRE_DAYS * 86400 } "x").2.2.2.2.2.2
      (by decide)⟩

/-- C3 counterexample: the plain string `"garbage"` — not a signed token at
all — is accepted by refresh because its hash matches a live ledger row:
refresh performs no signature or embedded-expiry verification. -/
theorem refresh_accepts_unsigned_string :
    isOkE (refresh_token 0 exDB3 (.unsigned "garbage")).1 = true := by decide

/-- C3 amended: refresh accepts a string only if the ledger resolves its
hash to a live (unrevoked, unexpired) row whose owner exists — ledger
lookup alone, with no check of the string's signature or embedded expiry. -/
theorem refresh_success_requires_ledger (now : Nat) (db : DB) (t : TokenStr)
    (hok : isOkE (refresh_token now db t).1 = true) :
    ledgerAccepts now db (hash_token (serializeToken t)) = true := by
  cases hread : refreshRead now db t with
  | error e =>
    have hh : refresh_token now db t = (.error e, db) := by simp [refresh_token, hread]
    rw [hh] at hok; simp [isOkE] at hok
  | ok q =>
    obtain ⟨rec, u⟩ := q
    obtain ⟨hfind, hrev, hexp, huser⟩ := refreshRead_ok_facts now db t rec u hread
    unfold ledgerAccepts
    rw [hfind]
    simp [hrev, hexp, huser]

/-- Witness for C3's amended theorem at the `"garbage"` state. -/
theorem refresh_success_requires_ledger_witness :
    ledgerAccepts 0 exDB3 (hash_token (serializeToken (.unsigned "garbage"))) = true :=
  refresh_success_requires_ledger 0 exDB3 (.unsigned "garbage") (by decide)

/-- C4: under the interleaving read₁ read₂ write₁ write₂, two refresh calls
racing on the same token BOTH succeed — the consume-and-revoke step is a
plain ORM read followed by a write, not a transactional conditional update,
so it does not serialize racing consumers to at most one winner. -/
theorem concurrent_refresh_both_succeed :
    isOkE (raceTwoRefresh 5 6 exDB1 exTok1).1 = true
      ∧ isOkE (raceTwoRefresh 5 6 exDB1 exTok1).2.1 = true :=
  ⟨by decide, by decide⟩

/-- C5: after a successful registration, logging in with the same
credentials succeeds, and the access token it returns validates (before its
TTL elapses) to the new user's id with role `"user"`.  `hfresh` is the
standing hash-collision-freedom assumption on the ledger (spec §4.2 treats
SHA-256 collisions as impossible). -/
theorem register_then_login_validates
    (db : DB) (nm em pw : String) (now now2 : Nat)
    (hreg : isOkE (register db nm em pw).1 = true)
    (hfresh : db.tokens.any (fun r =>
        r.token_hash == hash_token (serializeToken (create_refresh_token now db.nextUserId "user"))) = false)
    (hexp : now2 ≤ now + ACCESS_TOKEN_EXPIRE_MINUTES * 60) :
    isOkE (login now (register db nm em pw).2 em pw).1 = true
    ∧ validate_token now2 (getToken (login now (register db nm em pw).2 em pw).1)
        = .ok { user_id := (db.nextUserId : Int), role := some "user" } := by
  have hany : db.users.any (fun u => u.email == em) = false := by
    by_contra hc
    rw [Bool.not_eq_false] at hc
    simp [register, hc, isOkE] at hreg
  have hdb1 : (register db nm em pw).2
      = { db with users := db.users ++ [{ id := db.nextUserId, name := nm, email := em, password := hash_password pw, role := some "user", reset_code_hash := none, reset_code_expires_at := none }], nextUserId := db.nextUserId + 1 } := by
    simp [register, hany]
  have hfindNone : db.users.find? (fun u => u.email == em) = none := by
    exact List.find?_eq_none.mpr (List.any_eq_false.mp hany)
  have hfind1 : (register db nm em pw).2.users.find? (fun u => u.email == em)
      = some { id := db.nextUserId, name := nm, email := em, password := hash_password pw, role := some "user", reset_code_hash := none, reset_code_expires_at := none } := by
    rw [hdb1]
    simp [List.find?_append, hfindNone, List.find?]
  have hlogin : login now (register db nm em pw).2 em pw
      = (.ok { token := create_access_token now db.nextUserId "user", refresh_token := create_refresh_token now db.nextUserId "user" },
         { (register db nm em pw).2 with tokens := (register db nm em pw).2.tokens ++ [{ id := (register db nm em pw).2.nextTokenId, user_id := db.nextUserId, token_hash := hash_token (serializeToken (create_refresh_token now db.nextUserId "user")), expires_at := now + REFRESH_TOKEN_EXPIRE_DAYS * 86400, revoked := false }], nextTokenId := (register db nm em pw).2.nextTokenId + 1 }) := by
    simp only [login, hfind1]
    simp [verify_password, pyOr, insertRefreshToken, hdb1, hfresh]
  constructor
  · rw [hlogin]; rfl
  · rw [hlogin]
    have hnl : ¬ (now + ACCESS_TOKEN_EXPIRE_MINUTES * 60 < now2) := Nat.not_lt.mpr hexp
    simp [getToken, validate_token, decode_token, create_access_token, pyInt, hnl]

/-- Witness for C5 on the empty store: register, login at time 10,
validate at time 20. -/
theorem register_then_login_validates_witness :
    isOkE (register exDBEmpty "N" "n@x.com" "secret").1 = true
    ∧ isOkE (login 10 (register exDBEmpty "N" "n@x.com" "secret").2 "n@x.com" "secret").1 = true
    ∧ validate_token 20 (getToken (login 10 (register exDBEmpty "N" "n@x.com" "secret").2 "n@x.com" "secret").1)
        = .ok { user_id := 1, role := some "user" } :=
  ⟨by decide,
   (register_then_login_validates exDBEmpty "N" "n@x.com" "secret" 10 20 (by decide) (by decide) (by decide)).1,
   (register_then_login_validates exDBEmpty "N" "n@x.com" "secret" 10 20 (by decide) (by decide) (by decide)).2⟩

theorem hash_token_ne_empty (s : String) : (hash_token s == "") = false := by
  simp only [hash_token]
  by_contra hc
  rw [Bool.not_eq_false, beq_iff_eq] at hc
  have h7 : ("sha256:" ++ s).length = "".length := by rw [hc]
  rw [String.length_append] at h7
  have h8 : "sha256:".length = 7 := rfl
  have h0 : "".length = 0 := rfl
  rw [h8, h0] at h7
  omega

theorem resetRow_email (uid : Nat) (nh : String) (v : User) :
    (resetRow uid nh v).email = v.email := by
  unfold resetRow; split <;> rfl

theorem setOtpRow_email (uid : Nat) (oh : String) (t : Nat) (v : User) :
    (setOtpRow uid oh t v).email = v.email := by
  unfold setOtpRow; split <;> rfl

theorem find?_map_email (l : List User) (e : String) (f : User → User)
    (hf : ∀ u, (f u).email = u.email) :
    (l.map f).find? (fun u => u.email == e) = (l.find? (fun u => u.email == e)).map f := by
  have hp : ((fun u : User => u.email == e) ∘ f) = (fun u : User => u.email == e) := by
    funext u; simp [Function.comp, hf u]
  rw [List.find?_map, hp]

/-- The success path of `reset_password`: a matching, unexpired OTP yields
the committed row update. -/
theorem reset_password_hit (now : Nat) (db : DB) (email otp npw : String) (u : User) (t : Nat)
    (hfind : db.users.find? (fun v => v.email == email) = some u)
    (hhash : u.reset_code_hash = some (hash_token otp))
    (hexp : u.reset_code_expires_at = some t)
    (hnot : ¬ t < now) :
    reset_password now db email otp npw
      = (.ok "Password updated", { db with users := db.users.map (resetRow u.id (hash_password npw)) }) := by
  simp only [reset_password, hfind]
  simp [strFalsy, hhash, hexp, hash_token_ne_empty otp, hnot]

/-- C6: when the stored OTP hash matches the supplied code and the stored
expiry has not passed, reset-password succeeds, replaces the password hash
with the hash of the new password, clears both OTP columns, and an
immediately repeated reset with the same code fails (the OTP is
single-use). -/
theorem reset_password_success_single_use
    (now now2 : Nat) (db : DB) (email otp npw npw2 : String) (u : User) (t : Nat)
    (hfind : db.users.find? (fun v => v.email == email) = some u)
    (hhash : u.reset_code_hash = some (hash_token otp))
    (hexp : u.reset_code_expires_at = some t)
    (hnot : ¬ t < now) :
    isOkE (reset_password now db email otp npw).1 = true
    ∧ (reset_password now db email otp npw).2.users.find? (fun v => v.email == email)
        = some { u with password := hash_password npw, reset_code_hash := none, reset_code_expires_at := none }
    ∧ (reset_password now2 (reset_password now db email otp npw).2 email otp npw2).1
        = .error (.http 400 "OTP not requested") := by
  have hres := reset_password_hit now db email otp npw u t hfind hhash hexp hnot
  have hru : resetRow u.id (hash_password npw) u
      = { u with password := hash_password npw, reset_code_hash := none, reset_code_expires_at := none } := by
    simp [resetRow]
  have hfind2 : (reset_password now db email otp npw).2.users.find? (fun v => v.email == email)
      = some { u with password := hash_password npw, reset_code_hash := none, reset_code_expires_at := none } := by
    rw [hres]
    show (db.users.map (resetRow u.id (hash_password npw))).find? (fun v => v.email == email) = _
    rw [find?_map_email db.users email _ (resetRow_email u.id (hash_password npw)), hfind]
    show some (resetRow u.id (hash_password npw) u) = _
    rw [hru]
  have h3 : ∀ db2 : DB,
      db2.users.find? (fun v => v.email == email)
        = some { u with password := hash_password npw, reset_code_hash := none, reset_code_expires_at := none } →
      (reset_password now2 db2 email otp npw2).1 = .error (.http 400 "OTP not requested") := by
    intro db2 hf2
    simp only [reset_password]
    rw [hf2]
    simp [strFalsy]
  exact ⟨by rw [hres]; rfl, hfind2, h3 _ hfind2⟩

/-- Witness for C6 at the concrete pending-OTP state. -/
theorem reset_password_success_single_use_witness :
    isOkE (reset_password 0 exDBOtp "a@x.com" "123456" "newpw").1 = true
    ∧ (reset_password 10 (reset_password 0 exDBOtp "a@x.com" "123456" "newpw").2 "a@x.com" "123456" "again").1
        = .error (.http 400 "OTP not requested") :=
  ⟨(reset_password_success_single_use 0 10 exDBOtp "a@x.com" "123456" "newpw" "again" exUserOtp 900
      (by decide) (by decide) (by decide) (by decide)).1,
   (reset_password_success_single_use 0 10 exDBOtp "a@x.com" "123456" "newpw" "again" exUserOtp 900
      (by decide) (by decide) (by decide) (by decide)).2.2⟩

/-- C7 counterexample: the four reset-password failure causes raise four
DIFFERENT detail strings (here all four observed concretely), so the
response bodies distinguish "wrong code" from "no code pending" — the
causes are not indistinguishable to the caller. -/
theorem reset_password_failures_distinguishable :
    (reset_password 0 exDBEmpty "zz@x.com" "1" "np").1 = .error (.http 400 "Invalid email or OTP")
    ∧ (reset_password 0 exDB1 "a@x.com" "123456" "np").1 = .error (.http 400 "OTP not requested")
    ∧ (reset_password 1000 exDBOtp "a@x.com" "123456" "np").1 = .error (.http 400 "OTP expired")
    ∧ (reset_password 0 exDBOtp "a@x.com" "999999" "np").1 = .error (.http 400 "Invalid OTP")
    ∧ ("OTP not requested" ≠ "Invalid OTP") :=
  ⟨by decide, by decide, by decide, by decide, by decide⟩

/-- C7 amended: every failing reset-password call does share one HTTP
status, 400 (InvalidRequest) — but the detail strings differ per cause. -/
theorem reset_password_failures_all_400 (now : Nat) (db : DB) (email otp npw : String)
    (err : ApiError) (h : (reset_password now db email otp npw).1 = .error err) :
    ∃ d, err = .http 400 d := by
  simp only [reset_password] at h
  repeat' split at h
  all_goals simp at h
  all_goals exact ⟨_, h.symm⟩

/-- Witness for C7's amended theorem at a concrete failing call. -/
theorem reset_password_failures_all_400_witness :
    ∃ d, (ApiError.http 400 "OTP expired") = .http 400 d :=
  reset_password_failures_all_400 1000 exDBOtp "a@x.com" "123456" "np"
    (.http 400 "OTP expired") (by decide)

/-- C8 counterexample: an unknown email and a known email with a wrong
password fail with DIFFERENT detail strings ("User not found" vs "Wrong
password"), so a caller can tell which part was wrong. -/
theorem login_failures_distinguishable :
    (login 0 exDB1 "nobody@x.com" "pw").1 = .error (.http 400 "User not found")
    ∧ (login 0 exDB1 "a@x.com" "wrongpw").1 = .error (.http 400 "Wrong password")
    ∧ ("User not found" ≠ "Wrong password") :=
  ⟨by decide, by decide, by decide⟩

/-- C8 amended: both login failure modes share status 400, but the body
distinguishes unknown email from wrong password. -/
theorem login_failure_modes (now : Nat) (db : DB) (email pw : String) :
    (db.users.find? (fun u => u.email == email) = none →
      (login now db email pw).1 = .error (.http 400 "User not found"))
    ∧ (∀ u, db.users.find? (fun u => u.email == email) = some u →
        verify_password pw u.password = false →
        (login now db email pw).1 = .error (.http 400 "Wrong password")) := by
  constructor
  · intro h; simp [login, h]
  · intro u hf hv; simp [login, hf, hv]

/-- Witness for C8's amended theorem on the concrete store. -/
theorem login_failure_modes_witness :
    (login 0 exDB1 "nobody@x.com" "pw").1 = .error (.http 400 "User not found")
    ∧ (login 0 exDB1 "a@x.com" "wrongpw").1 = .error (.http 400 "Wrong password") :=
  ⟨(login_failure_modes 0 exDB1 "nobody@x.com" "pw").1 (by decide),
   (login_failure_modes 0 exDB1 "a@x.com" "wrongpw").2 exUser (by decide) (by decide)⟩

/-- C9: the book service's trust adapter maps a non-200 validate response to
401 and a transport failure to 503, and a request succeeds only with the
exact identity the auth service returned — never an anonymous or admin
fallback. -/
theorem get_current_user_trust_mapping (tok : String) (st : Nat) (body : ValidateOut)
    (htok : tok ≠ "") :
    (st ≠ 200 → get_current_user tok (.response st body) = .error (.http 401 "Invalid token"))
    ∧ get_current_user tok .networkError = .error (.http 503 "Auth service unavailable")
    ∧ (∀ call out, get_current_user tok call = .ok out → call = .response 200 out) := by
  refine ⟨?_, ?_, ?_⟩
  · intro hst; simp [get_current_user, htok, hst]
  · simp [get_current_user, htok]
  · intro call out h
    cases call with
    | networkError => simp [get_current_user, htok] at h
    | response st' b =>
      by_cases hst : st' = 200
      · subst hst
        simp [get_current_user, htok] at h
        rw [h]
      · simp [get_current_user, htok, hst] at h

/-- Witness for C9 at concrete remote outcomes. -/
theorem get_current_user_trust_mapping_witness :
    get_current_user "tok" (.response 500 { user_id := 1, role := some "admin" })
      = .error (.http 401 "Invalid token")
    ∧ get_current_user "tok" .networkError = .error (.http 503 "Auth service unavailable") :=
  ⟨(get_current_user_trust_mapping "tok" 500 { user_id := 1, role := some "admin" }
      (by decide)).1 (by decide),
   (get_current_user_trust_mapping "tok" 500 { user_id := 1, role := some "admin" }
      (by decide)).2.1⟩

/-- C10: forgot-password stores the OTP hash and 15-minute expiry and
commits BEFORE attempting delivery, so when the configured email call fails
(HTTP failure or network error) the route reports a 502 yet the user's OTP
state is already updated and the new OTP still works for reset-password. -/
theorem forgot_password_commits_despite_delivery_failure
    (now now2 : Nat) (db : DB) (email npw : String) (draw : Nat) (u : User)
    (mo : EmailOutcome)
    (hfind : db.users.find? (fun v => v.email == email) = some u)
    (hmail : mo = .httpFailure ∨ mo = .networkError)
    (hexp : ¬ now + 15 * 60 < now2) :
    (∃ d, (forgot_password now db email draw mo).1 = .error (.http 502 d))
    ∧ (forgot_password now db email draw mo).2.users.find? (fun v => v.email == email)
        = some { u with reset_code_hash := some (hash_token (formatOTP draw)), reset_code_expires_at := some (now + 15 * 60) }
    ∧ isOkE (reset_password now2 (forgot_password now db email draw mo).2 email (formatOTP draw) npw).1 = true := by
  have hpost : (forgot_password now db email draw mo).2
      = { db with users := db.users.map (setOtpRow u.id (hash_token (formatOTP draw)) (now + 15 * 60)) } := by
    rcases hmail with h | h <;> subst h <;> simp [forgot_password, hfind, send_email_result]
  have herr : ∃ d, (forgot_password now db email draw mo).1 = .error (.http 502 d) := by
    rcases hmail with h | h <;> subst h
    · exact ⟨"Failed to send email.", by simp [forgot_password, hfind, send_email_result]⟩
    · exact ⟨"Email service communication error", by simp [forgot_password, hfind, send_email_result]⟩
  have hsu : setOtpRow u.id (hash_token (formatOTP draw)) (now + 15 * 60) u
      = { u with reset_code_hash := some (hash_token (formatOTP draw)), reset_code_expires_at := some (now + 15 * 60) } := by
    simp [setOtpRow]
  have hfind2 : (forgot_password now db email draw mo).2.users.find? (fun v => v.email == email)
      = some { u with reset_code_hash := some (hash_token (formatOTP draw)), reset_code_expires_at := some (now + 15 * 60) } := by
    rw [hpost]
    show (db.users.map (setOtpRow u.id (hash_token (formatOTP draw)) (now + 15 * 60))).find?
        (fun v => v.email == email) = _
    rw [find?_map_email db.users email _ (setOtpRow_email u.id (hash_token (formatOTP draw)) (now + 15 * 60)), hfind]
    show some (setOtpRow u.id (hash_token (formatOTP draw)) (now + 15 * 60) u) = _
    rw [hsu]
  refine ⟨herr, hfind2, ?_⟩
  have hres := reset_password_hit now2 (forgot_password now db email draw mo).2 email
    (formatOTP draw) npw
    { u with reset_code_hash := some (hash_token (formatOTP draw)), reset_code_expires_at := some (now + 15 * 60) }
    (now + 15 * 60) hfind2 rfl rfl hexp
  rw [hres]
  rfl

/-- Witness for C10: OTP state survives a failed delivery and the code
still resets the password. -/
theorem forgot_password_commits_despite_delivery_failure_witness :
    (∃ d, (forgot_password 100 exDB1 "a@x.com" 42 .httpFailure).1 = .error (.http 502 d))
    ∧ isOkE (reset_password 200 (forgot_password 100 exDB1 "a@x.com" 42 .httpFailure).2 "a@x.com" (formatOTP 42) "np2").1 = true :=
  ⟨(forgot_password_commits_despite_delivery_failure 100 200 exDB1 "a@x.com" "np2" 42 exUser
      .httpFailure (by decide) (Or.inl rfl) (by decide)).1,
   (forgot_password_commits_despite_delivery_failure 100 200 exDB1 "a@x.com" "np2" 42 exUser
      .httpFailure (by decide) (Or.inl rfl) (by decide)).2.2⟩
